import Mathlib

/-!
Verification of the embassy800c alarm-panel firmware against its
natural-language specification.  The definitions below are a shallow
embedding of the Rust sources: `constants.rs`, `alarms_handler.rs`,
`alarms.rs`, `custom_strings.rs`, `sim800.rs` and the orchestrator in
`main.rs`.  Machine integers are modelled as `Nat`/`Int` with explicit
`% 256` where the Rust code truncates to `u8`; Rust's
`u8::saturating_sub` coincides with truncated `Nat` subtraction.
Fixed-size Rust arrays indexed by `usize` become total functions from
`Fin n`; a `for i in 0..n` loop becomes a fold over the literal index
list.  Rust methods that mutate `&mut self` become functions returning
the updated value (paired with the Rust return value where there is
one).
-/

set_option maxRecDepth 4000

namespace Embassy800c

/-! ### Constants (`constants.rs`) -/

abbrev ALARMS_CHANNELS_AMOUNT : Nat := 3

abbrev ALARMS_STACK_DEPTH : Nat := 3

abbrev ALARMS_MESSAGE_STRING_LENGTH : Nat := 3

abbrev DTMF_PACKET_LENGTH : Nat := 3

def ALIVE_PERIOD_MINUTES : Int := 120

/-! ### Alarm history tracker (`alarms_handler.rs`)

`AlarmStack` holds `stack: [[bool; ALARMS_CHANNELS_AMOUNT]; ALARMS_STACK_DEPTH]`
and `counter: usize`.  This is the variant `main.rs` actually imports
(`use crate::alarms_handler::{AlarmStack, AlarmTracker}`). -/

namespace AlarmsHandler

abbrev Row : Type := Fin ALARMS_CHANNELS_AMOUNT → Bool

abbrev Matrix : Type := Fin ALARMS_STACK_DEPTH → Row

/-- Rust array-element assignment `m[i] = v` on a row-indexed array. -/
def setRow (m : Matrix) (i : Fin ALARMS_STACK_DEPTH) (v : Row) : Matrix :=
  fun j => if j = i then v else m j

/-- Rust assignment `m[i][c] = b` of a single boolean cell. -/
def setEntry (m : Matrix) (i : Fin ALARMS_STACK_DEPTH)
    (c : Fin ALARMS_CHANNELS_AMOUNT) (b : Bool) : Matrix :=
  setRow m i (fun k => if k = c then b else m i k)

structure AlarmStack where
  stack : Matrix
  counter : Nat

/-- `AlarmStack::new`: all cells false, counter 0. -/
def AlarmStack.new : AlarmStack := { stack := fun _ _ => false, counter := 0 }

/-- `AlarmStack::get_stack_view`: returns the raw matrix. -/
def AlarmStack.get_stack_view (s : AlarmStack) : Matrix := s.stack

/-- `alarms_handler.rs` lines 36-51, `AlarmTracker::push` for `AlarmStack`.
While `counter < ALARMS_STACK_DEPTH` the snapshot is stored at index
`counter`.  Once full, the code copies `stack[2][idx]` into `stack[1][idx]`
only for channels where `stack[0][idx] == stack[1][idx]` (the
`continue` skips differing channels), then overwrites the last row;
row 0 is never modified. -/
def AlarmStack.push (s : AlarmStack) (alarms : Row) : AlarmStack :=
  if h : s.counter < ALARMS_STACK_DEPTH then
    { stack := setRow s.stack ⟨s.counter, h⟩ alarms, counter := s.counter + 1 }
  else
    let firstRow := s.stack 0
    let afterLoop :=
      ([0, 1, 2] : List (Fin ALARMS_CHANNELS_AMOUNT)).foldl
        (fun m idx =>
          if firstRow idx != m 1 idx then m
          else setEntry m 1 idx (m 2 idx))
        s.stack
    { stack := setRow afterLoop 2 alarms, counter := s.counter }

/-- `alarms_handler.rs` lines 53-63, `AlarmTracker::has_changes`:
for every column, compare rows 1 and 2 of the fixed backing array with
row 0; `counter` is not consulted. -/
def AlarmStack.has_changes (s : AlarmStack) : Bool :=
  ([0, 1, 2] : List (Fin ALARMS_CHANNELS_AMOUNT)).any fun col =>
    ([1, 2] : List (Fin ALARMS_STACK_DEPTH)).any fun row =>
      s.stack row col != s.stack 0 col

/-- `alarms_handler.rs` lines 65-82, `AlarmTracker::export_bits`:
for each column build `acc` by or-ing `1 << row` over rows whose cell is
set, emit the character `acc + b'0'` (codes modelled as `Nat`; `acc` is
at most 7 so the `u8` addition cannot overflow), then collapse the
window: row 0 becomes the last row and `counter` resets to 1.  Returns
the emitted codes together with the mutated stack. -/
def AlarmStack.export_bits (s : AlarmStack) :
    (Fin ALARMS_MESSAGE_STRING_LENGTH → Nat) × AlarmStack :=
  let result : Fin ALARMS_MESSAGE_STRING_LENGTH → Nat := fun col =>
    (([0, 1, 2] : List (Fin ALARMS_STACK_DEPTH)).foldl
      (fun acc row => if s.stack row col then acc ||| (1 <<< row.val) else acc)
      0) + 48
  (result, { stack := setRow s.stack 0 (s.stack 2), counter := 1 })

/-- `alarms_handler.rs` lines 84-91, `AlarmTracker::import_bits`:
`digit = (bits[col] as u8).saturating_sub(b'0')` — the `as u8` cast
truncates the character's scalar value modulo 256, and `Nat` subtraction
is saturating — then cell `(row, col)` becomes `(digit >> row) & 1 != 0`.
`counter` is untouched. -/
def AlarmStack.import_bits (s : AlarmStack)
    (bits : Fin ALARMS_MESSAGE_STRING_LENGTH → Nat) : AlarmStack :=
  { s with stack :=
      (([0, 1, 2] : List (Fin ALARMS_CHANNELS_AMOUNT)).foldl
        (fun m col =>
          let digit := bits col % 256 - 48
          ([0, 1, 2] : List (Fin ALARMS_STACK_DEPTH)).foldl
            (fun m2 row => setEntry m2 row col (((digit >>> row.val) &&& 1) != 0))
            m)
        s.stack) }

end AlarmsHandler

/-! ### The unused clean-shift tracker (`alarms.rs`)

`alarms.rs` is not listed among the `mod` declarations of `main.rs`; it
contains the positional shift-left eviction the spec declares canonical. -/

namespace Alarms

open AlarmsHandler (Row Matrix setRow)

structure AlarmStack where
  stack : Matrix
  counter : Nat

def AlarmStack.new : AlarmStack := { stack := fun _ _ => false, counter := 0 }

/-- `alarms.rs` lines 17-27, `AlarmStack::push`: when full, shift every
row left by one position (`stack[i] = stack[i+1]` for `i in 0..D-1`,
executed in increasing order) and append the new snapshot. -/
def AlarmStack.push (s : AlarmStack) (alarms : Row) : AlarmStack :=
  if h : s.counter < ALARMS_STACK_DEPTH then
    { stack := setRow s.stack ⟨s.counter, h⟩ alarms, counter := s.counter + 1 }
  else
    let shifted :=
      ([0, 1] : List (Fin ALARMS_STACK_DEPTH)).foldl
        (fun m i => setRow m i (m (i + 1)))
        s.stack
    { stack := setRow shifted 2 alarms, counter := s.counter }

end Alarms

/-! ### String helpers (`custom_strings.rs`) -/

namespace CustomStrings

/-- Rust `str::split_once(delim)`: split at the first occurrence of the
delimiter, returning the parts before and after it, or `none` when the
delimiter does not occur.  Strings are modelled as `List Char`. -/
def split_once (delim : List Char) : List Char → Option (List Char × List Char)
  | [] => if delim.isPrefixOf ([] : List Char) then some ([], []) else none
  | c :: rest =>
    if delim.isPrefixOf (c :: rest) then some ([], (c :: rest).drop delim.length)
    else
      match split_once delim rest with
      | some (pre, suf) => some (c :: pre, suf)
      | none => none

/-- `custom_strings.rs` lines 8-10, `extract_before_delimiter`: the
substring before `delimiter`, if present. -/
def extract_before_delimiter (input delim : List Char) : Option (List Char) :=
  (split_once delim input).map Prod.fst

end CustomStrings

/-! ### Reporting orchestrator (`main.rs`, `logic_task` and
`play_received_alarms`)

The `logic_task` loop `select3`s over the SIM800 event channel, the
60-second sender tick, and the optional watchdog deadline; we model one
loop iteration as a step function on the task's state.  Physical time is
abstracted away: the armed watchdog deadline is kept as the `Nat` number
of seconds it was armed for, and the `.watchdogFire` input corresponds
to the armed `Timer::at(deadline)` future winning the select — when the
deadline is `None` that future is `core::future::pending` and can never
be selected, which the step models by ignoring the input.  The shared
`AlarmStack` is owned by `adc_monitor_task`; the tick input carries the
value of `state.alarm_stack.has_changes()` observed under the lock, and
the step returns `true` when the branch exports and sends a report. -/

namespace Logic

/-- The `SimEvent` variants that `main.rs` matches on (the final event
vocabulary, per the orchestrator's `match event`).  The payload of
`TimeReceived` is irrelevant to the logic modelled here. -/
inductive SimEvent where
  | smsReceived (number timestamp message : List Char)
  | dtmfReceived (c : Char)
  | callEnded
  | callReceived (number : List Char)
  | callExecuted (success : Bool)
  | timeReceived
  deriving DecidableEq

/-- `hardware.rs` `AlarmOutputs`: three boolean relay outputs,
`true` = set_high. -/
structure AlarmOutputs where
  alarm_out_1 : Bool
  alarm_out_2 : Bool
  alarm_out_3 : Bool
  deriving DecidableEq

/-- `main.rs` lines 246-249: copy the first
`ALARMS_MESSAGE_STRING_LENGTH` characters of the received code into a
`['\0'; 3]` array (missing positions keep code 0). -/
def pad_alarm_chars (alarm_str : List Char) :
    Fin ALARMS_MESSAGE_STRING_LENGTH → Nat := fun i =>
  ((alarm_str.take ALARMS_MESSAGE_STRING_LENGTH).map Char.toNat).getD i.val 0

/-- `main.rs` lines 243-264, `play_received_alarms`: decode the received
code into a fresh `AlarmStack` and drive the three outputs row by row
(row 0 first); after the loop the outputs hold the last row.  The 3 s
dwell between rows is dropped from the model. -/
def play_received_alarms (outputs : AlarmOutputs) (alarm_str : List Char) :
    AlarmOutputs :=
  let temp_stack :=
    AlarmsHandler.AlarmStack.import_bits AlarmsHandler.AlarmStack.new
      (pad_alarm_chars alarm_str)
  let matrix := temp_stack.get_stack_view
  ([0, 1, 2] : List (Fin ALARMS_STACK_DEPTH)).foldl
    (fun _ row =>
      { alarm_out_1 := matrix row 0
        alarm_out_2 := matrix row 1
        alarm_out_3 := matrix row 2 })
    outputs

/-- Watchdog arming duration, `main.rs`: `Duration::from_secs(255 * 60)`. -/
def WATCHDOG_TIMEOUT_SECS : Nat := 255 * 60

/-- Rust `str::len`: the length of a string in UTF-8 bytes, not in
characters (`heapless::String<N>` likewise counts its capacity `N` in
bytes). -/
def utf8_len (l : List Char) : Nat := l.foldl (fun n c => n + c.utf8Size) 0

/-- The mutable state of `logic_task` (plus the shared
`alive_countdown` from `SystemState`): the optional watchdog deadline,
the bounded DTMF digit buffer (`String<DTMF_PACKET_LENGTH>`), the
keep-alive countdown (`i32`) and the relay outputs. -/
structure LogicState where
  watchdog_deadline : Option Nat
  dtmf_buffer : List Char
  alive_countdown : Int
  outputs : AlarmOutputs
  deriving DecidableEq

/-- The three wake sources of the `select3` in `logic_task`. -/
inductive LogicInput where
  | event (e : SimEvent)
  | senderTick (changed : Bool)
  | watchdogFire
  deriving DecidableEq

/-- One iteration of the `logic_task` loop (`main.rs` lines 131-239),
returning the updated state and whether the sender-tick branch emitted a
report (exported the stack and sent an SMS/DTMF command).  `alive` is
the configured `ALIVE_PERIOD_MINUTES`.  Both length tests of the event
branch are byte-based, as in the Rust source: `alarm_str.len()` counts
UTF-8 bytes, and the `String<DTMF_PACKET_LENGTH>` digit buffer measures
both its occupancy and its capacity in bytes, so `push` fails when the
digit's encoding no longer fits. -/
def logic_step (alive : Int) (s : LogicState) (i : LogicInput) :
    LogicState × Bool :=
  match i with
  | .event (.smsReceived _ _ message) =>
    (match CustomStrings.extract_before_delimiter message [';'] with
     | some alarm_str =>
       if utf8_len alarm_str = ALARMS_MESSAGE_STRING_LENGTH then
         ({ s with outputs := play_received_alarms s.outputs alarm_str
                   watchdog_deadline := some WATCHDOG_TIMEOUT_SECS }, false)
       else (s, false)
     | none => (s, false))
  | .event (.dtmfReceived c) =>
    if utf8_len s.dtmf_buffer + c.utf8Size ≤ DTMF_PACKET_LENGTH then
      let buf := s.dtmf_buffer ++ [c]
      if utf8_len buf = DTMF_PACKET_LENGTH then
        ({ s with outputs := play_received_alarms s.outputs buf
                  watchdog_deadline := some WATCHDOG_TIMEOUT_SECS
                  dtmf_buffer := [] }, false)
      else ({ s with dtmf_buffer := buf }, false)
    else (s, false)
  | .event .callEnded => ({ s with dtmf_buffer := [] }, false)
  | .event (.callReceived _) => (s, false)
  | .event (.callExecuted _) => (s, false)
  | .event .timeReceived => (s, false)
  | .senderTick changed =>
    let tick : Bool := decide (s.alive_countdown ≤ 0)
    let s1 :=
      if changed || tick then { s with alive_countdown := alive + 1 } else s
    let reported := changed || tick
    let s2 :=
      if !tick then { s1 with alive_countdown := s1.alive_countdown - 1 }
      else s1
    (s2, reported)
  | .watchdogFire =>
    match s.watchdog_deadline with
    | some _ =>
      ({ s with outputs := ⟨false, false, false⟩
                watchdog_deadline := none }, false)
    | none => (s, false)

/-- Run a list of loop iterations. -/
def run_logic (alive : Int) (s : LogicState) (l : List LogicInput) :
    LogicState :=
  l.foldl (fun st i => (logic_step alive st i).1) s

/-- Inputs that can never arm the watchdog: everything except a DTMF
digit and an SMS whose body yields a code whose UTF-8 byte length is
exactly the expected one. -/
def non_rearming : LogicInput → Bool
  | .event (.smsReceived _ _ message) =>
    (match CustomStrings.extract_before_delimiter message [';'] with
     | some alarm_str => utf8_len alarm_str != ALARMS_MESSAGE_STRING_LENGTH
     | none => true)
  | .event (.dtmfReceived _) => false
  | _ => true

/-- Initial state of `logic_task`: no watchdog deadline, empty DTMF
buffer, `alive_countdown` 0 (`STATE` initializer in `main.rs`), outputs
high (`hardware.rs` initializes the relay pins at `Level::High`). -/
def init_logic_state : LogicState :=
  { watchdog_deadline := none
    dtmf_buffer := []
    alive_countdown := 0
    outputs := ⟨true, true, true⟩ }

/-- State after `k` sender ticks with no sensor change and no other
events, starting from the initial state. -/
def ticks_from (alive : Int) : Nat → LogicState
  | 0 => init_logic_state
  | n + 1 => (logic_step alive (ticks_from alive n) (.senderTick false)).1

/-- Whether the `k`-th sender tick (1-based) of the no-change run emits
a report. -/
def report_on_tick (alive : Int) (k : Nat) : Bool :=
  (logic_step alive (ticks_from alive (k - 1)) (.senderTick false)).2

end Logic

/-! ### Modem reader and correlator (`sim800.rs`)

`rx_runner` assembles bytes into lines and classifies each completed
line; `parse_quoted` extracts the n-th double-quoted field.  The
classifier below models the per-line processing of `rx_runner`
(the body of `if let Ok(line) = from_utf8(..)`), taking an assembled
line and the two pieces of parser state (`expecting_sms_body`,
`pending_sms_header`) and returning the new state, the unsolicited
events pushed to the event channel, and the response result signalled
to `RESPONSE_SIGNAL`, if any. -/

namespace Sim800

/-- `sim800.rs` constant `MAX_PHONE_LENGTH` (the module-local one). -/
def MAX_PHONE_LENGTH : Nat := 20

/-- `sim800.rs` constant `SIM800_LINE_BUFFER_SIZE`. -/
def SIM800_LINE_BUFFER_SIZE : Nat := 128

/-- `CommandResult` from `sim800.rs`. -/
inductive CommandResult where
  | ok
  | error
  | prompt
  | timeout
  deriving DecidableEq

/-- `Sms` record carried by `SimEvent::SmsReceived`. -/
structure Sms where
  number : List Char
  timestamp : List Char
  message : List Char
  deriving DecidableEq

/-- `SimEvent` as declared in `sim800.rs`. -/
inductive SimEvent where
  | incomingCall (number : List Char)
  | callEnded
  | smsReceived (sms : Sms)
  | smsMemoryFull
  | systemReady
  deriving DecidableEq

/-- `heapless::String<N>::push`: appends a character, silently dropped
when the string already holds `cap` characters (the code ignores the
`Err` result). -/
def boundedPush (cap : Nat) (l : List Char) (c : Char) : List Char :=
  if l.length < cap then l ++ [c] else l

/-- Loop body of `parse_quoted` (`sim800.rs` lines 279-305): scan the
characters, tracking the index of the current quote pair and whether the
scanner is inside quotes; once the closing quote of the target pair is
seen the accumulated text is returned, otherwise scanning continues and
the accumulator is returned at end of input. -/
def parseQuotedGo (cap target : Nat) :
    List Char → Nat → Bool → List Char → List Char
  | [], _, _, result => result
  | c :: rest, currentIdx, inQuote, result =>
    if c = '"' then
      if inQuote then
        if currentIdx = target then result
        else parseQuotedGo cap target rest (currentIdx + 1) false result
      else
        parseQuotedGo cap target rest currentIdx true
          (if currentIdx = target then [] else result)
    else if inQuote && currentIdx = target then
      parseQuotedGo cap target rest currentIdx inQuote (boundedPush cap result c)
    else parseQuotedGo cap target rest currentIdx inQuote result

/-- `parse_quoted::<N>(input, target_idx)`: text between the
`target_idx`-th pair of double quotes, accumulated into a
`heapless::String<N>`. -/
def parse_quoted (cap : Nat) (input : List Char) (targetIdx : Nat) :
    List Char :=
  parseQuotedGo cap targetIdx input 0 false []

/-- Rust `str::trim`: strip whitespace from both ends. -/
def trimChars (l : List Char) : List Char :=
  ((l.dropWhile Char.isWhitespace).reverse.dropWhile Char.isWhitespace).reverse

/-- The multi-line parser state of `rx_runner`. -/
structure RxState where
  expecting_sms_body : Bool
  pending_sms_header : Option (List Char × List Char)
  deriving DecidableEq

/-- `rx_runner` initial state: not expecting a body, no pending header. -/
def init_rx_state : RxState := { expecting_sms_body := false, pending_sms_header := none }

/-- Classification of one assembled line (`sim800.rs` lines 214-260).
The branches are checked in source order: empty after trim → nothing;
expecting body → pair with the pending header and emit `SmsReceived`;
exact `OK` / `ERROR` → correlator result; `RING` → nothing; `+CLIP:`
prefix → `IncomingCall`; `NO CARRIER` prefix → `CallEnded`; `+CMT:`
prefix → store header, arm expecting-body; `Call Ready` prefix →
`SystemReady`; anything else is dropped. -/
def classify_line (st : RxState) (line : List Char) :
    RxState × List SimEvent × Option CommandResult :=
  let clean := trimChars line
  if clean.isEmpty then (st, [], none)
  else if st.expecting_sms_body then
    match st.pending_sms_header with
    | some (num, ts) =>
      ({ expecting_sms_body := false, pending_sms_header := none },
       [SimEvent.smsReceived
          { number := num, timestamp := ts,
            message := clean.take SIM800_LINE_BUFFER_SIZE }],
       none)
    | none =>
      ({ st with expecting_sms_body := false }, [], none)
  else if clean = "OK".toList then (st, [], some CommandResult.ok)
  else if clean = "ERROR".toList then (st, [], some CommandResult.error)
  else if clean = "RING".toList then (st, [], none)
  else if ("+CLIP:".toList).isPrefixOf clean then
    (st, [SimEvent.incomingCall (parse_quoted MAX_PHONE_LENGTH clean 0)], none)
  else if ("NO CARRIER".toList).isPrefixOf clean then
    (st, [SimEvent.callEnded], none)
  else if ("+CMT:".toList).isPrefixOf clean then
    ({ expecting_sms_body := true,
       pending_sms_header :=
         some (parse_quoted MAX_PHONE_LENGTH clean 0, parse_quoted 20 clean 2) },
     [], none)
  else if ("Call Ready".toList).isPrefixOf clean then
    (st, [SimEvent.systemReady], none)
  else (st, [], none)

end Sim800

/-! ### Response correlator (`sim800.rs`, `RESPONSE_SIGNAL` and
`send_cmd_wait`)

`RESPONSE_SIGNAL` is an `embassy_sync::signal::Signal`: a single slot
where `signal` overwrites the stored value (latest value wins), `reset`
clears it, and `wait` takes the stored value when one is present.
`send_cmd_wait` performs `reset`, writes the command bytes (under the
`tx` mutex, which is released before waiting), then awaits the signal.
We model interleavings of two concurrent `send_cmd_wait` calls A and B
plus the reader task signalling classified line results, as a sequence
of atomic actions on the slot.  A `wait` action resolves only when the
slot is full; on an empty slot it leaves the state unchanged (the future
stays pending).  `a_got` / `b_got` record the result each call's await
returned. -/

namespace Correlator

open Sim800 (CommandResult)

structure CorrState where
  slot : Option CommandResult
  a_got : Option CommandResult
  b_got : Option CommandResult
  deriving DecidableEq

/-- Atomic actions of the two callers and the reader task. -/
inductive CorrAct where
  | resetA
  | sendA
  | waitA
  | resetB
  | sendB
  | waitB
  | lineResult (r : CommandResult)
  deriving DecidableEq

def corr_step (s : CorrState) : CorrAct → CorrState
  | .resetA => { s with slot := none }
  | .resetB => { s with slot := none }
  | .sendA => s
  | .sendB => s
  | .lineResult r => { s with slot := some r }
  | .waitA =>
    match s.slot with
    | some r => { s with slot := none, a_got := some r }
    | none => s
  | .waitB =>
    match s.slot with
    | some r => { s with slot := none, b_got := some r }
    | none => s

def corr_run (s : CorrState) (l : List CorrAct) : CorrState :=
  l.foldl corr_step s

def corr_init : CorrState := { slot := none, a_got := none, b_got := none }

end Correlator

/-! ### Concrete states used by witnesses and counterexamples -/

/-- The live tracker after pushing `[T,T,T]` and then `[F,F,F]` three
times into a fresh stack: the last `ALARMS_STACK_DEPTH` pushes are all
all-false rows. -/
def fifo_failing_stack : AlarmsHandler.AlarmStack :=
  ((((AlarmsHandler.AlarmStack.new).push (fun _ => true)).push
      (fun _ => false)).push (fun _ => false)).push (fun _ => false)

/-- The unused shift variant after the same four pushes. -/
def shift_variant_stack : Alarms.AlarmStack :=
  ((((Alarms.AlarmStack.new).push (fun _ => true)).push
      (fun _ => false)).push (fun _ => false)).push (fun _ => false)

/-- A sample full window (diagonal pattern) for witnesses. -/
def sample_full_stack : AlarmsHandler.AlarmStack :=
  { stack := fun r c => decide (r.val = c.val), counter := 3 }

/-- A sample `logic_task` state with the watchdog armed. -/
def sample_armed_state : Logic.LogicState :=
  { watchdog_deadline := some 100
    dtmf_buffer := []
    alive_countdown := 0
    outputs := ⟨true, true, true⟩ }

/-- The SMS notification header line of the pairing scenario. -/
def cmt_line : List Char :=
  ("+CMT: \"+1555\",\"\",\"24/01/01,12:00:00+00\"").toList

/-! ## Theorems -/

/-! ### Helper lemmas about the alarm history tracker -/

/-- Entrywise description of `import_bits`: cell `(r, c)` is bit `r` of
the saturating difference between the low byte of the `c`-th character
and the code of the digit zero. -/
theorem import_bits_stack (s : AlarmsHandler.AlarmStack)
    (bits : Fin ALARMS_MESSAGE_STRING_LENGTH → Nat)
    (r : Fin ALARMS_STACK_DEPTH) (c : Fin ALARMS_CHANNELS_AMOUNT) :
    (s.import_bits bits).stack r c = (((bits c % 256 - 48) >>> r.val) &&& 1 != 0) := by
  fin_cases r <;> fin_cases c <;> rfl

/-- The code emitted for column `c` by `export_bits` is the weighted sum
of the column's three cells plus the code of the digit zero. -/
theorem export_bits_fst (s : AlarmsHandler.AlarmStack)
    (c : Fin ALARMS_MESSAGE_STRING_LENGTH) :
    (s.export_bits).1 c =
      cond (s.stack 0 c) 1 0 + cond (s.stack 1 c) 2 0 + cond (s.stack 2 c) 4 0 + 48 := by
  simp only [AlarmsHandler.AlarmStack.export_bits, List.foldl_cons, List.foldl_nil]
  cases s.stack 0 c <;> cases s.stack 1 c <;> cases s.stack 2 c <;> rfl

/-- Bit-level round trip: decoding bit `r` of an encoded column
recovers the `r`-th of the three encoded booleans. -/
theorem bit_round (b0 b1 b2 : Bool) (r : Fin ALARMS_STACK_DEPTH) :
    (((cond b0 1 0 + cond b1 2 0 + cond b2 4 0 + 48) % 256 - 48) >>> r.val &&& 1 != 0)
      = (if r.val = 0 then b0 else if r.val = 1 then b1 else b2) := by
  cases b0 <;> cases b1 <;> cases b2 <;> fin_cases r <;> rfl

/-! ### C1 -/

/-- C1: the live tracker (`alarms_handler.rs`, imported by `main.rs`)
violates FIFO eviction.  After pushing `[T,T,T]` and then three all-false
snapshots into a fresh stack, the window should equal the last three
pushes (all cells false), but row 0 still holds the first push: the
full-stack branch of `push` never shifts row 0 out and only conditionally
copies into row 1. -/
theorem push_fifo_failing_eval :
    fifo_failing_stack.counter = 3 ∧
    fifo_failing_stack.stack 0 0 = true ∧
    fifo_failing_stack.stack 0 1 = true ∧
    fifo_failing_stack.stack 0 2 = true ∧
    fifo_failing_stack.stack 1 0 = false ∧
    fifo_failing_stack.stack 2 0 = false := by
  decide

/-- The clean shift variant in `alarms.rs` (not compiled into the
binary: `main.rs` has no `mod alarms`) gives the FIFO result on the same
input: all cells false after the fourth push. -/
theorem shift_variant_fifo_eval :
    shift_variant_stack.counter = 3 ∧
    shift_variant_stack.stack 0 0 = false ∧
    shift_variant_stack.stack 0 1 = false ∧
    shift_variant_stack.stack 0 2 = false ∧
    shift_variant_stack.stack 1 0 = false ∧
    shift_variant_stack.stack 2 0 = false := by
  decide

/-! ### C2 -/

/-- C2 counterexample: after a single push into a fresh stack the window
holds one row (`counter = 1`, fewer than 2 rows), yet `has_changes`
already returns `true`, because it compares all three backing rows —
including the two never-pushed all-false rows — against row 0. -/
theorem has_changes_single_row_counterexample :
    ((AlarmsHandler.AlarmStack.new).push (fun _ => true)).counter = 1 ∧
    ((AlarmsHandler.AlarmStack.new).push (fun _ => true)).has_changes = true := by
  decide

/-- C2 (amended): `has_changes` ignores the occupancy counter and
compares all rows of the fixed backing array: it is true iff some
backing row differs from row 0 on some channel.  Consequently,
immediately after `export_bits` (which rewrites row 0 with the last row
and leaves rows 1 and 2 stale) it is true iff the two pre-export rows 1
and 2 differed on some channel — not necessarily false. -/
theorem has_changes_characterization (s : AlarmsHandler.AlarmStack) :
    (s.has_changes = true ↔
      ∃ r : Fin ALARMS_STACK_DEPTH, ∃ c : Fin ALARMS_CHANNELS_AMOUNT,
        s.stack r c ≠ s.stack 0 c) ∧
    ((s.export_bits).2.has_changes = true ↔
      ∃ c : Fin ALARMS_CHANNELS_AMOUNT, s.stack 1 c ≠ s.stack 2 c) := by
  constructor
  · simp only [AlarmsHandler.AlarmStack.has_changes, List.any_cons, List.any_nil,
      Bool.or_eq_true, Bool.or_false, bne_iff_ne]
    constructor
    · rintro ((h | h) | (h | h) | (h | h))
      · exact ⟨1, 0, h⟩
      · exact ⟨2, 0, h⟩
      · exact ⟨1, 1, h⟩
      · exact ⟨2, 1, h⟩
      · exact ⟨1, 2, h⟩
      · exact ⟨2, 2, h⟩
    · rintro ⟨r, c, h⟩
      fin_cases r
      · exact absurd rfl h
      · fin_cases c
        · exact Or.inl (Or.inl h)
        · exact Or.inr (Or.inl (Or.inl h))
        · exact Or.inr (Or.inr (Or.inl h))
      · fin_cases c
        · exact Or.inl (Or.inr h)
        · exact Or.inr (Or.inl (Or.inr h))
        · exact Or.inr (Or.inr (Or.inr h))
  · simp only [AlarmsHandler.AlarmStack.export_bits, AlarmsHandler.AlarmStack.has_changes,
      AlarmsHandler.setRow, List.any_cons, List.any_nil,
      Bool.or_eq_true, Bool.or_false, bne_iff_ne]
    norm_num
    constructor
    · rintro (h | h | h)
      · exact ⟨0, h⟩
      · exact ⟨1, h⟩
      · exact ⟨2, h⟩
    · rintro ⟨c, h⟩
      fin_cases c
      · exact Or.inl h
      · exact Or.inr (Or.inl h)
      · exact Or.inr (Or.inr h)

/-- C2 witness: instantiating the characterization at a concrete stack
whose backing row 1 is set on channel 0. -/
theorem has_changes_characterization_witness :
    fifo_failing_stack.has_changes = true :=
  (has_changes_characterization fifo_failing_stack).1.mpr ⟨1, 0, by decide⟩

/-! ### C4 -/

/-- C4: round trip of the compact code.  For every window filled to
`ALARMS_STACK_DEPTH` rows, importing the characters produced by
`export_bits` reconstructs the original window cell by cell, whatever
stack the decoder starts from.  (`export_bits` reads the full backing
array, so the property in fact needs no occupancy assumption; the
hypothesis mirrors the claim's "filled to D rows".) -/
theorem export_import_round_trip (s t : AlarmsHandler.AlarmStack)
    (_h : s.counter = ALARMS_STACK_DEPTH) :
    (t.import_bits (s.export_bits).1).stack = s.stack := by
  funext r c
  rw [import_bits_stack, export_bits_fst, bit_round]
  fin_cases r <;> rfl

/-- C4 witness: the round trip at a concrete full window. -/
theorem export_import_round_trip_witness :
    sample_full_stack.counter = ALARMS_STACK_DEPTH ∧
    ((AlarmsHandler.AlarmStack.new).import_bits
        (sample_full_stack.export_bits).1).stack = sample_full_stack.stack :=
  ⟨rfl, export_import_round_trip sample_full_stack AlarmsHandler.AlarmStack.new rfl⟩

/-! ### C8 -/

/-- C8 counterexample: the claim's formula "bit r of (char − '0')"
fails for the character with scalar value 257.  Bit 0 of `257 − 48` is
1, so the claim predicts row 0 true, but `import_bits` truncates the
character to its low byte first (`as u8`), giving digit
`(257 % 256).saturating_sub(48) = 0` and row 0 false. -/
theorem import_bits_truncation_counterexample :
    ((AlarmsHandler.AlarmStack.new).import_bits (fun _ => 257)).stack 0 0 = false ∧
    ((257 - 48 : Nat) >>> 0 &&& 1 != 0) = true := by
  decide

/-- C8 (amended): `import_bits` is a total function on all
`ALARMS_MESSAGE_STRING_LENGTH`-character inputs (every cell and the
counter are well defined; there is no out-of-bounds access to model);
a character whose code is below the code of the digit zero saturates to
digit 0, making all rows of its channel false; and the rows are
determined by the low byte of the character: cell `(r, c)` is bit `r`
of `(char_c mod 256) −sat 48`. -/
theorem import_bits_total_and_saturating (s : AlarmsHandler.AlarmStack)
    (bits : Fin ALARMS_MESSAGE_STRING_LENGTH → Nat) :
    (s.import_bits bits).counter = s.counter ∧
    (∀ (r : Fin ALARMS_STACK_DEPTH) (c : Fin ALARMS_CHANNELS_AMOUNT),
      (s.import_bits bits).stack r c = (((bits c % 256 - 48) >>> r.val) &&& 1 != 0)) ∧
    (∀ c : Fin ALARMS_CHANNELS_AMOUNT, bits c < 48 →
      ∀ r : Fin ALARMS_STACK_DEPTH, (s.import_bits bits).stack r c = false) := by
  refine ⟨rfl, fun r c => import_bits_stack s bits r c, ?_⟩
  intro c hc r
  rw [import_bits_stack]
  have h1 : bits c % 256 = bits c := Nat.mod_eq_of_lt (lt_trans hc (by norm_num))
  rw [h1, Nat.sub_eq_zero_of_le (le_of_lt hc)]
  simp

/-- C8 witness: a space character (code 32, below the digit zero)
decodes to an all-false channel. -/
theorem import_bits_saturation_witness :
    (32 : Nat) < 48 ∧
    ((AlarmsHandler.AlarmStack.new).import_bits (fun _ => 32)).stack 0 0 = false :=
  ⟨by decide,
   (import_bits_total_and_saturating AlarmsHandler.AlarmStack.new (fun _ => 32)).2.2
     0 (by decide) 0⟩

/-! ### C3 -/

/-- In the no-change run the countdown before tick `k+1` (that is,
after `k` ticks) counts down from `N + 1`: it equals `N + 2 - k` for
`1 ≤ k ≤ N + 2`. -/
theorem tick_countdown (N : Nat) :
    ∀ k : Nat, 1 ≤ k → k ≤ N + 2 →
      (Logic.ticks_from (N : Int) k).alive_countdown = (N : Int) + 2 - k := by
  intro k
  induction k with
  | zero => omega
  | succ n ih =>
    intro _ h2
    rcases Nat.eq_zero_or_pos n with h0 | hpos
    · subst h0
      simp [Logic.ticks_from, Logic.logic_step, Logic.init_logic_state]
      omega
    · have hcd := ih hpos (by omega)
      have hgt : ¬ ((Logic.ticks_from (N : Int) n).alive_countdown ≤ 0) := by
        rw [hcd]; omega
      show (Logic.logic_step (N : Int) (Logic.ticks_from (N : Int) n)
        (.senderTick false)).1.alive_countdown = (N : Int) + 2 - (n + 1 : Nat)
      simp [Logic.logic_step, hgt]
      omega

/-- C3 counterexample: with the configured alive period of 120 ticks
(`ALIVE_PERIOD_MINUTES = 120`) and no sensor change, no report is
emitted on tick N + 1 = 121, contrary to the claim: the countdown at
that tick is still 2. -/
theorem report_cadence_counterexample :
    Logic.report_on_tick (120 : Int) 121 = false := by
  have hcd := tick_countdown 120 120 (by omega) (by omega)
  push_cast at hcd
  have hgt : ¬ ((Logic.ticks_from (120 : Int) 120).alive_countdown ≤ 0) := by
    rw [hcd]; omega
  show (Logic.logic_step (120 : Int) (Logic.ticks_from (120 : Int) 120)
    (.senderTick false)).2 = false
  simp [Logic.logic_step, hgt]

/-- C3 (amended): with a configured alive period of `N` ticks and no
sensor change, the tick logic reports on tick 1 and on tick `N + 3` and
on no tick in between: each report resets the countdown to `N + 1` and
the countdown is decremented only on ticks that start with a positive
countdown, so consecutive keep-alive reports are `N + 2` ticks apart.
A sensor change still forces a report at the very next tick regardless
of the countdown. -/
theorem report_cadence (N : Nat) :
    Logic.report_on_tick (N : Int) 1 = true ∧
    (∀ j : Nat, 2 ≤ j → j ≤ N + 2 → Logic.report_on_tick (N : Int) j = false) ∧
    Logic.report_on_tick (N : Int) (N + 3) = true ∧
    (∀ (alive : Int) (s : Logic.LogicState),
      (Logic.logic_step alive s (.senderTick true)).2 = true) := by
  refine ⟨?_, ?_, ?_, ?_⟩
  · simp [Logic.report_on_tick, Logic.ticks_from, Logic.logic_step,
      Logic.init_logic_state]
  · intro j hj2 hjN
    have hcd := tick_countdown N (j - 1) (by omega) (by omega)
    have hgt : ¬ ((Logic.ticks_from (N : Int) (j - 1)).alive_countdown ≤ 0) := by
      rw [hcd]; omega
    show (Logic.logic_step (N : Int) (Logic.ticks_from (N : Int) (j - 1))
      (.senderTick false)).2 = false
    simp [Logic.logic_step, hgt]
  · have hcd := tick_countdown N (N + 2) (by omega) (by omega)
    have hz : (Logic.ticks_from (N : Int) (N + 2)).alive_countdown ≤ 0 := by
      rw [hcd]; push_cast; omega
    show (Logic.logic_step (N : Int) (Logic.ticks_from (N : Int) (N + 3 - 1))
      (.senderTick false)).2 = true
    have h31 : N + 3 - 1 = N + 2 := by omega
    rw [h31]
    simp [Logic.logic_step, hz]
  · intro alive s
    simp [Logic.logic_step]

/-- C3 witness: instantiating the cadence at alive period 120 — report
on tick 1, silence on tick 5, report again on tick 123, and a forced
report on a change tick. -/
theorem report_cadence_witness :
    Logic.report_on_tick (120 : Int) 1 = true ∧
    Logic.report_on_tick (120 : Int) 5 = false ∧
    Logic.report_on_tick (120 : Int) 123 = true ∧
    (Logic.logic_step 120 Logic.init_logic_state (.senderTick true)).2 = true :=
  ⟨(report_cadence 120).1,
   (report_cadence 120).2.1 5 (by decide) (by decide),
   (report_cadence 120).2.2.1,
   (report_cadence 120).2.2.2 120 Logic.init_logic_state⟩

/-! ### C5 -/

/-- A step on a non-re-arming input never arms a disarmed watchdog. -/
theorem non_rearming_keeps_disarmed (alive : Int) (s : Logic.LogicState)
    (i : Logic.LogicInput) (h0 : s.watchdog_deadline = none)
    (hi : Logic.non_rearming i = true) :
    (Logic.logic_step alive s i).1.watchdog_deadline = none := by
  cases i with
  | event e =>
    cases e with
    | smsReceived n t m =>
      cases hx : CustomStrings.extract_before_delimiter m [';'] with
      | none => simpa [Logic.logic_step, hx] using h0
      | some a =>
        simp only [Logic.non_rearming, hx, bne_iff_ne, ne_eq, decide_eq_true_eq] at hi
        simpa [Logic.logic_step, hx, hi] using h0
    | dtmfReceived c => simp [Logic.non_rearming] at hi
    | callEnded => simpa [Logic.logic_step] using h0
    | callReceived n => simpa [Logic.logic_step] using h0
    | callExecuted b => simpa [Logic.logic_step] using h0
    | timeReceived => simpa [Logic.logic_step] using h0
  | senderTick changed =>
    simp only [Logic.logic_step]
    split <;> split <;> simpa using h0
  | watchdogFire => simp [Logic.logic_step, h0]

/-- Running any sequence of non-re-arming inputs keeps the watchdog
disarmed. -/
theorem run_keeps_disarmed (alive : Int) :
    ∀ (l : List Logic.LogicInput) (s : Logic.LogicState),
      s.watchdog_deadline = none → (∀ i ∈ l, Logic.non_rearming i = true) →
      (Logic.run_logic alive s l).watchdog_deadline = none := by
  intro l
  induction l with
  | nil => intro s h0 _; simpa [Logic.run_logic] using h0
  | cons a t ih =>
    intro s h0 hl
    have ha : Logic.non_rearming a = true := hl a (by simp)
    have ht : ∀ i ∈ t, Logic.non_rearming i = true := fun i hi => hl i (by simp [hi])
    show (Logic.run_logic alive ((Logic.logic_step alive s a).1) t).watchdog_deadline = none
    exact ih _ (non_rearming_keeps_disarmed alive s a h0 ha) ht

/-- C5: watchdog safety.  From any state with the watchdog armed, the
deadline branch drives all three outputs to the safe low state and
disarms the watchdog in a single step; afterwards, along any sequence of
inputs none of which can re-arm it, the watchdog stays disarmed and a
further firing of the watchdog wake source is a no-op (its future is
`pending`, modelled as the identity step), so the safe transition
happens exactly once. -/
theorem watchdog_safety (alive : Int) (s : Logic.LogicState) (d : Nat)
    (h : s.watchdog_deadline = some d) :
    ((Logic.logic_step alive s .watchdogFire).1.outputs = ⟨false, false, false⟩ ∧
     (Logic.logic_step alive s .watchdogFire).1.watchdog_deadline = none) ∧
    ∀ l : List Logic.LogicInput, (∀ i ∈ l, Logic.non_rearming i = true) →
      (Logic.run_logic alive (Logic.logic_step alive s .watchdogFire).1
          l).watchdog_deadline = none ∧
      Logic.logic_step alive
          (Logic.run_logic alive (Logic.logic_step alive s .watchdogFire).1 l)
          .watchdogFire
        = (Logic.run_logic alive (Logic.logic_step alive s .watchdogFire).1 l,
           false) := by
  have h1 : (Logic.logic_step alive s .watchdogFire).1.watchdog_deadline = none := by
    simp [Logic.logic_step, h]
  have hnoop : ∀ st : Logic.LogicState, st.watchdog_deadline = none →
      Logic.logic_step alive st .watchdogFire = (st, false) := by
    intro st hst
    simp [Logic.logic_step, hst]
  refine ⟨⟨by simp [Logic.logic_step, h], h1⟩, ?_⟩
  intro l hl
  have h2 := run_keeps_disarmed alive l _ h1 hl
  exact ⟨h2, hnoop _ h2⟩

/-- C5 witness: the safety property at a concrete armed state, followed
by one quiet tick. -/
theorem watchdog_safety_witness :
    ((Logic.logic_step 120 sample_armed_state .watchdogFire).1.outputs
        = ⟨false, false, false⟩ ∧
     (Logic.logic_step 120 sample_armed_state .watchdogFire).1.watchdog_deadline
        = none) ∧
    (Logic.run_logic 120 (Logic.logic_step 120 sample_armed_state .watchdogFire).1
        [.senderTick false]).watchdog_deadline = none ∧
    Logic.logic_step 120
        (Logic.run_logic 120 (Logic.logic_step 120 sample_armed_state .watchdogFire).1
          [.senderTick false]) .watchdogFire
      = (Logic.run_logic 120 (Logic.logic_step 120 sample_armed_state .watchdogFire).1
          [.senderTick false], false) :=
  ⟨(watchdog_safety 120 sample_armed_state 100 rfl).1,
   (watchdog_safety 120 sample_armed_state 100 rfl).2 [.senderTick false] (by decide)⟩

/-! ### C7 -/

/-- C7 counterexample: the length test at `main.rs` line 137 is
`alarm_str.len()`, which counts UTF-8 bytes, not characters.  For the
body "ā2;x" the extracted code "ā2" has 2 characters — different from
the expected channel count 3, so the claim says the SMS is ignored —
but its byte length is 3 ('ā' is U+0101, two bytes), so the code
replays it (the outputs leave their initial all-high state) and arms the
watchdog. -/
theorem wrong_length_sms_replayed_counterexample :
    (CustomStrings.extract_before_delimiter ("ā2;x".toList) [';']).map List.length
      = some 2 ∧
    (Logic.logic_step 120 Logic.init_logic_state
        (.event (.smsReceived [] [] ("ā2;x".toList)))).1.watchdog_deadline
      = some Logic.WATCHDOG_TIMEOUT_SECS ∧
    (Logic.logic_step 120 Logic.init_logic_state
        (.event (.smsReceived [] [] ("ā2;x".toList)))).1.outputs
      = ⟨false, false, false⟩ := by
  decide

/-- C7 (amended): lengths are measured in UTF-8 bytes, as Rust
`str::len` does.  An SMS whose body has no delimiter, or whose extracted
code has a byte length other than `ALARMS_MESSAGE_STRING_LENGTH`, leaves
the orchestrator state completely unchanged — no output is driven and
the watchdog is not armed, so such a code is never even partially
applied. -/
theorem wrong_length_sms_ignored (alive : Int) (s : Logic.LogicState)
    (number timestamp message : List Char)
    (h : CustomStrings.extract_before_delimiter message [';'] = none ∨
         ∃ a, CustomStrings.extract_before_delimiter message [';'] = some a ∧
           Logic.utf8_len a ≠ ALARMS_MESSAGE_STRING_LENGTH) :
    Logic.logic_step alive s (.event (.smsReceived number timestamp message))
      = (s, false) := by
  rcases h with h | ⟨a, ha, hlen⟩
  · simp [Logic.logic_step, h]
  · simp [Logic.logic_step, ha, hlen]

/-- C7 witness: the body "12" has no delimiter, and the body "1234;x"
yields the four-byte code "1234"; the state is untouched in both
cases. -/
theorem wrong_length_sms_ignored_witness :
    CustomStrings.extract_before_delimiter ("12".toList) [';'] = none ∧
    Logic.logic_step 120 Logic.init_logic_state
        (.event (.smsReceived [] [] ("12".toList)))
      = (Logic.init_logic_state, false) ∧
    Logic.logic_step 120 Logic.init_logic_state
        (.event (.smsReceived [] [] ("1234;x".toList)))
      = (Logic.init_logic_state, false) :=
  ⟨by decide,
   wrong_length_sms_ignored 120 Logic.init_logic_state [] [] ("12".toList)
     (Or.inl (by decide)),
   wrong_length_sms_ignored 120 Logic.init_logic_state [] [] ("1234;x".toList)
     (Or.inr ⟨"1234".toList, by decide, by decide⟩)⟩

/-! ### C10 -/

/-- C10: when `play_received_alarms` returns, each alarm output equals
the corresponding boolean of the last row (row `ALARMS_STACK_DEPTH - 1`)
of the window decoded from the received code, whatever the outputs held
before; the function ends without de-energizing, so the outputs keep
that row until the watchdog deadline or another replay changes them. -/
theorem replay_holds_last_row (o : Logic.AlarmOutputs) (alarm_str : List Char) :
    Logic.play_received_alarms o alarm_str =
      { alarm_out_1 := ((AlarmsHandler.AlarmStack.new).import_bits
          (Logic.pad_alarm_chars alarm_str)).stack 2 0
        alarm_out_2 := ((AlarmsHandler.AlarmStack.new).import_bits
          (Logic.pad_alarm_chars alarm_str)).stack 2 1
        alarm_out_3 := ((AlarmsHandler.AlarmStack.new).import_bits
          (Logic.pad_alarm_chars alarm_str)).stack 2 2 } := rfl

/-- C10 witness: replaying the code "700" from all-low outputs leaves
output 1 high (digit 7 sets every row of channel 0) and outputs 2 and 3
low. -/
theorem replay_holds_last_row_witness :
    Logic.play_received_alarms ⟨false, false, false⟩ ("700".toList)
      = ⟨true, false, false⟩ :=
  (replay_holds_last_row ⟨false, false, false⟩ ("700".toList)).trans (by decide)

/-! ### C6 -/

/-- C6: SMS pairing.  Classifying the header line
`+CMT: "+1555","","24/01/01,12:00:00+00"` from the initial reader state
emits no event and no correlator result (it only stores the pending
header and arms the expecting-body flag), and classifying the following
line `101` emits exactly one `SmsReceived` event with sender `+1555`,
timestamp `24/01/01,12:00:00+00` and body `101`, again with no
correlator result. -/
theorem sms_pairing :
    (Sim800.classify_line Sim800.init_rx_state cmt_line).2 = ([], none) ∧
    (Sim800.classify_line (Sim800.classify_line Sim800.init_rx_state cmt_line).1
        ("101".toList)).2
      = ([Sim800.SimEvent.smsReceived
            { number := "+1555".toList
              timestamp := "24/01/01,12:00:00+00".toList
              message := "101".toList }], none) := by
  constructor
  · rfl
  · rfl

/-! ### C9 -/

/-- C9 counterexample: with command B issued while A's response is
outstanding and both classified lines (A's `OK`, then B's `ERROR`)
arriving before either await resolves, the single-slot latest-value-wins
signal lets A's await observe `ERROR` — the result classified from B's
response line — because B's line overwrote A's result in the slot. -/
theorem single_slot_cross_observation :
    (Correlator.corr_run Correlator.corr_init
        [.resetA, .sendA, .resetB, .sendB,
         .lineResult .ok, .lineResult .error, .waitA]).a_got
      = some Sim800.CommandResult.error := rfl

/-- C9 (amended): the single-slot correlator keeps results correctly
matched only under the single-in-flight discipline.  When the commands
do not overlap — each await resolves before the next command's reset and
send — every command observes exactly the result classified from its own
response line; overlapping issuance can cross-observe, as the
counterexample interleaving shows. -/
theorem single_inflight_no_cross (rA rB : Sim800.CommandResult) :
    (Correlator.corr_run Correlator.corr_init
        [.resetA, .sendA, .lineResult rA, .waitA,
         .resetB, .sendB, .lineResult rB, .waitB]).a_got = some rA ∧
    (Correlator.corr_run Correlator.corr_init
        [.resetA, .sendA, .lineResult rA, .waitA,
         .resetB, .sendB, .lineResult rB, .waitB]).b_got = some rB :=
  ⟨rfl, rfl⟩

/-- C9 witness: the sequential discipline at concrete results. -/
theorem single_inflight_no_cross_witness :
    (Correlator.corr_run Correlator.corr_init
        [.resetA, .sendA, .lineResult .ok, .waitA,
         .resetB, .sendB, .lineResult .error, .waitB]).a_got
      = some Sim800.CommandResult.ok ∧
    (Correlator.corr_run Correlator.corr_init
        [.resetA, .sendA, .lineResult .ok, .waitA,
         .resetB, .sendB, .lineResult .error, .waitB]).b_got
      = some Sim800.CommandResult.error :=
  single_inflight_no_cross Sim800.CommandResult.ok Sim800.CommandResult.error

end Embassy800c
